import Mathlib

/-!
Verification development for the RightAnglePhoto pose-guidance engine.

The definitions below are a shallow embedding of the pose-utility functions in
`src/utils/poseUtils.ts`, the static pose templates in `src/data/poseTemplates.ts`,
and the template-selection/cache logic of the application component
(`handleTemplateSelect`).  JavaScript IEEE-754 numbers are modelled as real
numbers; JavaScript truthiness tests on numbers (`lm.z ? … : undefined`,
`a || b || 1`, `live.visibility && …`) are modelled as tests for being nonzero;
`Math.sqrt` is `Real.sqrt` and `Math.atan2` is the piecewise `atan2` defined
below.  Statefulness of the template cache is modelled by explicit state
passing over an `AppState` record, with the `await` suspension point of the
async handler split into a start step and a finish step.
-/

open Real

noncomputable section

namespace RightAnglePhoto

open Classical

/-- Model of the `Landmark` type from `src/types/pose.ts`: 2D position with
optional depth and optional visibility. -/
structure Landmark where
  x : ℝ
  y : ℝ
  z : Option ℝ
  visibility : Option ℝ
deriving DecidableEq

/-- Model of a detected skeleton: per the detector contract, a full-length
array with one entry per MediaPipe landmark index (33 of them). -/
def Skeleton := Fin 33 → Landmark

/- MediaPipe pose landmark indices, from `POSE_LANDMARKS` in `src/types/pose.ts`. -/
namespace POSE_LANDMARKS

def NOSE : Fin 33 := 0
def LEFT_EYE_INNER : Fin 33 := 1
def LEFT_EYE : Fin 33 := 2
def LEFT_EYE_OUTER : Fin 33 := 3
def RIGHT_EYE_INNER : Fin 33 := 4
def RIGHT_EYE : Fin 33 := 5
def RIGHT_EYE_OUTER : Fin 33 := 6
def LEFT_EAR : Fin 33 := 7
def RIGHT_EAR : Fin 33 := 8
def MOUTH_LEFT : Fin 33 := 9
def MOUTH_RIGHT : Fin 33 := 10
def LEFT_SHOULDER : Fin 33 := 11
def RIGHT_SHOULDER : Fin 33 := 12
def LEFT_ELBOW : Fin 33 := 13
def RIGHT_ELBOW : Fin 33 := 14
def LEFT_WRIST : Fin 33 := 15
def RIGHT_WRIST : Fin 33 := 16
def LEFT_PINKY : Fin 33 := 17
def RIGHT_PINKY : Fin 33 := 18
def LEFT_INDEX : Fin 33 := 19
def RIGHT_INDEX : Fin 33 := 20
def LEFT_THUMB : Fin 33 := 21
def RIGHT_THUMB : Fin 33 := 22
def LEFT_HIP : Fin 33 := 23
def RIGHT_HIP : Fin 33 := 24
def LEFT_KNEE : Fin 33 := 25
def RIGHT_KNEE : Fin 33 := 26
def LEFT_ANKLE : Fin 33 := 27
def RIGHT_ANKLE : Fin 33 := 28
def LEFT_HEEL : Fin 33 := 29
def RIGHT_HEEL : Fin 33 := 30
def LEFT_FOOT_INDEX : Fin 33 := 31
def RIGHT_FOOT_INDEX : Fin 33 := 32

end POSE_LANDMARKS

/-- Model of the `NormalizedPose` type from `src/types/pose.ts`.  The landmark
list may be shorter than 33 entries (the static templates only list 6-8). -/
structure NormalizedPose where
  landmarks : List Landmark
  center : ℝ × ℝ
  scale : ℝ

/-- The `'too-close' | 'good' | 'too-far'` union returned by `computeDistanceHint`. -/
inductive DistanceHint where
  | tooClose
  | good
  | tooFar
deriving DecidableEq

/-- The local `center` of `normalizePose`: midpoint of LEFT_HIP and RIGHT_HIP. -/
def hipMidpoint (landmarks : Skeleton) : ℝ × ℝ :=
  (((landmarks POSE_LANDMARKS.LEFT_HIP).x + (landmarks POSE_LANDMARKS.RIGHT_HIP).x) / 2,
   ((landmarks POSE_LANDMARKS.LEFT_HIP).y + (landmarks POSE_LANDMARKS.RIGHT_HIP).y) / 2)

/-- The local `shoulderMidpoint` of `normalizePose`. -/
def shoulderMidpoint (landmarks : Skeleton) : ℝ × ℝ :=
  (((landmarks POSE_LANDMARKS.LEFT_SHOULDER).x + (landmarks POSE_LANDMARKS.RIGHT_SHOULDER).x) / 2,
   ((landmarks POSE_LANDMARKS.LEFT_SHOULDER).y + (landmarks POSE_LANDMARKS.RIGHT_SHOULDER).y) / 2)

/-- The local `shoulderHipDistance` of `normalizePose`: Euclidean distance from
the shoulder midpoint to the hip-midpoint center. -/
def shoulderHipDistance (landmarks : Skeleton) : ℝ :=
  Real.sqrt (((shoulderMidpoint landmarks).1 - (hipMidpoint landmarks).1) ^ 2 +
    ((shoulderMidpoint landmarks).2 - (hipMidpoint landmarks).2) ^ 2)

/-- The local `ankleMidpoint` shared by `normalizePose` and `computeDistanceHint`. -/
def ankleMidpoint (landmarks : Skeleton) : ℝ × ℝ :=
  (((landmarks POSE_LANDMARKS.LEFT_ANKLE).x + (landmarks POSE_LANDMARKS.RIGHT_ANKLE).x) / 2,
   ((landmarks POSE_LANDMARKS.LEFT_ANKLE).y + (landmarks POSE_LANDMARKS.RIGHT_ANKLE).y) / 2)

/-- The local `bodyHeight` shared by `normalizePose` and `computeDistanceHint`:
Euclidean distance from the NOSE to the ankle midpoint. -/
def bodyHeight (landmarks : Skeleton) : ℝ :=
  Real.sqrt (((landmarks POSE_LANDMARKS.NOSE).x - (ankleMidpoint landmarks).1) ^ 2 +
    ((landmarks POSE_LANDMARKS.NOSE).y - (ankleMidpoint landmarks).2) ^ 2)

/-- The `scale = bodyHeight || shoulderHipDistance || 1` line of `normalizePose`:
JavaScript `||` takes the left operand when it is truthy (a nonzero number). -/
def poseScale (landmarks : Skeleton) : ℝ :=
  if bodyHeight landmarks ≠ 0 then bodyHeight landmarks
  else if shoulderHipDistance landmarks ≠ 0 then shoulderHipDistance landmarks
  else 1

/-- The body of the `landmarks.map((lm) => …)` in `normalizePose`.  The depth
field models `z: lm.z ? lm.z / scale : undefined`: the ternary takes its first
branch only when `lm.z` is present and truthy (nonzero). -/
def normalizeLandmark (center : ℝ × ℝ) (scale : ℝ) (lm : Landmark) : Landmark where
  x := (lm.x - center.1) / scale
  y := (lm.y - center.2) / scale
  z := match lm.z with
    | some zv => if zv ≠ 0 then some (zv / scale) else none
    | none => none
  visibility := lm.visibility

/-- Model of `normalizePose` from `src/utils/poseUtils.ts`. -/
def normalizePose (landmarks : Skeleton) : NormalizedPose where
  landmarks := List.ofFn fun i => normalizeLandmark (hipMidpoint landmarks) (poseScale landmarks) (landmarks i)
  center := (0, 0)
  scale := 1

/-- Access the i-th entry of a normalized pose's landmark list (total, with a
throwaway default used only out of range). -/
def poseLandmark (p : NormalizedPose) (i : ℕ) : Landmark :=
  p.landmarks.getD i { x := 0, y := 0, z := none, visibility := none }

/-- The hip-midpoint x position of a skeleton in image-relative coordinates
(the quantity `computeCenterOffset` maps into pixel space). -/
def hipMidX (landmarks : Skeleton) : ℝ :=
  ((landmarks POSE_LANDMARKS.LEFT_HIP).x + (landmarks POSE_LANDMARKS.RIGHT_HIP).x) / 2

/-- Model of `computeCenterOffset` from `src/utils/poseUtils.ts`. -/
def computeCenterOffset (landmarks : Skeleton) (viewportWidth : ℝ) : ℝ :=
  let centerX := (((landmarks POSE_LANDMARKS.LEFT_HIP).x + (landmarks POSE_LANDMARKS.RIGHT_HIP).x) / 2) * viewportWidth
  let viewportCenter := viewportWidth / 2
  let offset := (centerX - viewportCenter) / (viewportWidth / 2)
  max (-1) (min 1 offset)

/-- Model of `computeDistanceHint` from `src/utils/poseUtils.ts`. -/
def computeDistanceHint (landmarks : Skeleton) (viewportHeight : ℝ) : DistanceHint :=
  let bh := bodyHeight landmarks * viewportHeight
  let minHeight := viewportHeight * 0.4
  let maxHeight := viewportHeight * 0.15
  if bh > minHeight then .tooClose
  else if bh < maxHeight then .tooFar
  else .good

/-- Model of JavaScript `Math.atan2 y x` on real (non-NaN, finite) inputs. -/
def atan2 (y x : ℝ) : ℝ :=
  if 0 < x then Real.arctan (y / x)
  else if x < 0 then
    (if 0 ≤ y then Real.arctan (y / x) + π else Real.arctan (y / x) - π)
  else
    (if 0 < y then π / 2 else if y < 0 then -(π / 2) else 0)

/-- Model of `computeTilt` from `src/utils/poseUtils.ts`. -/
def computeTilt (landmarks : Skeleton) : ℝ :=
  let dx := (landmarks POSE_LANDMARKS.RIGHT_SHOULDER).x - (landmarks POSE_LANDMARKS.LEFT_SHOULDER).x
  let dy := (landmarks POSE_LANDMARKS.RIGHT_SHOULDER).y - (landmarks POSE_LANDMARKS.LEFT_SHOULDER).y
  let angle := atan2 dy dx * (180 / π)
  |angle|

/-- Euclidean distance between the (x, y) positions of a live and a template
landmark, as accumulated in the loop of `computePoseMatch`. -/
def landmarkError (live template : Landmark) : ℝ :=
  Real.sqrt ((live.x - template.x) ^ 2 + (live.y - template.y) ^ 2)

/-- One iteration of the `for (const idx of keyLandmarkIndices)` loop of
`computePoseMatch`, threading the `(totalError, validLandmarks)` accumulator.
The guard models `if (live && template && live.visibility && live.visibility > 0.5)`:
both array entries must exist and the live visibility must be present, truthy
(nonzero) and greater than 0.5. -/
def matchStep (normalizedPose templatePose : NormalizedPose) (acc : ℝ × ℕ) (idx : ℕ) : ℝ × ℕ :=
  match normalizedPose.landmarks.get? idx, templatePose.landmarks.get? idx with
  | some live, some template =>
    match live.visibility with
    | some v => if v ≠ 0 ∧ v > 0.5 then (acc.1 + landmarkError live template, acc.2 + 1) else acc
    | none => acc
  | _, _ => acc

/-- Model of `computePoseMatch` from `src/utils/poseUtils.ts`. -/
def computePoseMatch (normalizedPose templatePose : NormalizedPose)
    (keyLandmarkIndices : List ℕ) : ℝ :=
  if keyLandmarkIndices.length = 0 then 0
  else
    let acc := keyLandmarkIndices.foldl (matchStep normalizedPose templatePose) (0, 0)
    if acc.2 = 0 then 0
    else max 0 (min 1 (1 - (acc.1 / (acc.2 : ℝ)) / 0.5))

/-- The normalized pose of a skeleton always has the full 33 landmark entries. -/
lemma normalizePose_length (lms : Skeleton) : (normalizePose lms).landmarks.length = 33 := by
  simp [normalizePose]

/-- Entry i of a normalized pose is the normalization of input landmark i. -/
lemma poseLandmark_normalizePose (lms : Skeleton) (i : Fin 33) :
    poseLandmark (normalizePose lms) i.val =
      normalizeLandmark (hipMidpoint lms) (poseScale lms) (lms i) := by
  unfold poseLandmark normalizePose
  rw [List.getD_eq_getElem _ _ (by simp), List.getElem_ofFn, Fin.eta]

/-- A skeleton with every landmark at the origin and no depth or visibility data. -/
def zeroSkel : Skeleton := fun _ => { x := 0, y := 0, z := none, visibility := none }

/-- C5: for every skeleton, `normalizePose` returns a pose whose output
LEFT_HIP/RIGHT_HIP midpoint is exactly (0, 0), and whose `center` and `scale`
fields are exactly (0, 0) and 1. -/
theorem normalizePose_centered (lms : Skeleton) :
    (normalizePose lms).center = (0, 0) ∧ (normalizePose lms).scale = 1 ∧
    ((poseLandmark (normalizePose lms) 23).x + (poseLandmark (normalizePose lms) 24).x) / 2 = 0 ∧
    ((poseLandmark (normalizePose lms) 23).y + (poseLandmark (normalizePose lms) 24).y) / 2 = 0 := by
  have h23 : poseLandmark (normalizePose lms) 23 =
      normalizeLandmark (hipMidpoint lms) (poseScale lms) (lms POSE_LANDMARKS.LEFT_HIP) :=
    poseLandmark_normalizePose lms POSE_LANDMARKS.LEFT_HIP
  have h24 : poseLandmark (normalizePose lms) 24 =
      normalizeLandmark (hipMidpoint lms) (poseScale lms) (lms POSE_LANDMARKS.RIGHT_HIP) :=
    poseLandmark_normalizePose lms POSE_LANDMARKS.RIGHT_HIP
  refine ⟨rfl, rfl, ?_, ?_⟩
  · rw [h23, h24]
    simp only [normalizeLandmark, hipMidpoint]
    rw [div_add_div_same]
    have hz : (lms POSE_LANDMARKS.LEFT_HIP).x -
        ((lms POSE_LANDMARKS.LEFT_HIP).x + (lms POSE_LANDMARKS.RIGHT_HIP).x) / 2 +
        ((lms POSE_LANDMARKS.RIGHT_HIP).x -
          ((lms POSE_LANDMARKS.LEFT_HIP).x + (lms POSE_LANDMARKS.RIGHT_HIP).x) / 2) = 0 := by
      ring
    rw [hz, zero_div, zero_div]
  · rw [h23, h24]
    simp only [normalizeLandmark, hipMidpoint]
    rw [div_add_div_same]
    have hz : (lms POSE_LANDMARKS.LEFT_HIP).y -
        ((lms POSE_LANDMARKS.LEFT_HIP).y + (lms POSE_LANDMARKS.RIGHT_HIP).y) / 2 +
        ((lms POSE_LANDMARKS.RIGHT_HIP).y -
          ((lms POSE_LANDMARKS.LEFT_HIP).y + (lms POSE_LANDMARKS.RIGHT_HIP).y) / 2) = 0 := by
      ring
    rw [hz, zero_div, zero_div]

/-- C6: the scale used by `normalizePose` follows the documented fallback chain
(body height, then shoulder-hip distance, then 1), is always strictly positive
(so the division is never by zero), the output is defined for all 33 landmarks,
and a fully degenerate skeleton (nose coincident with the ankle midpoint and
shoulder midpoint coincident with the hip center) gets scale 1. -/
theorem normalizePose_scale_spec :
    (∀ lms : Skeleton, 0 < poseScale lms) ∧
    (∀ lms : Skeleton, (normalizePose lms).landmarks.length = 33) ∧
    (∀ lms : Skeleton, bodyHeight lms ≠ 0 → poseScale lms = bodyHeight lms) ∧
    (∀ lms : Skeleton, bodyHeight lms = 0 → shoulderHipDistance lms ≠ 0 →
      poseScale lms = shoulderHipDistance lms) ∧
    (∀ lms : Skeleton, bodyHeight lms = 0 → shoulderHipDistance lms = 0 → poseScale lms = 1) ∧
    (∀ lms : Skeleton,
      ((lms POSE_LANDMARKS.NOSE).x, (lms POSE_LANDMARKS.NOSE).y) = ankleMidpoint lms →
      shoulderMidpoint lms = hipMidpoint lms → poseScale lms = 1) := by
  have hchain : ∀ lms : Skeleton,
      (bodyHeight lms ≠ 0 → poseScale lms = bodyHeight lms) ∧
      (bodyHeight lms = 0 → shoulderHipDistance lms ≠ 0 →
        poseScale lms = shoulderHipDistance lms) ∧
      (bodyHeight lms = 0 → shoulderHipDistance lms = 0 → poseScale lms = 1) := by
    intro lms
    unfold poseScale
    refine ⟨fun h => by simp [h], fun h hs => by simp [h, hs], fun h hs => by simp [h, hs]⟩
  refine ⟨?_, normalizePose_length, fun lms => (hchain lms).1, fun lms => (hchain lms).2.1,
    fun lms => (hchain lms).2.2, ?_⟩
  · intro lms
    unfold poseScale
    split_ifs with h1 h2
    · exact (Real.sqrt_nonneg _).lt_of_ne (Ne.symm h1)
    · exact (Real.sqrt_nonneg _).lt_of_ne (Ne.symm h2)
    · norm_num
  · intro lms hnose hsh
    have hx : (lms POSE_LANDMARKS.NOSE).x = (ankleMidpoint lms).1 := congrArg Prod.fst hnose
    have hy : (lms POSE_LANDMARKS.NOSE).y = (ankleMidpoint lms).2 := congrArg Prod.snd hnose
    have hb : bodyHeight lms = 0 := by
      unfold bodyHeight
      rw [hx, hy]
      simp
    have hs : shoulderHipDistance lms = 0 := by
      unfold shoulderHipDistance
      rw [hsh]
      simp
    exact (hchain lms).2.2 hb hs

/-- Witness for the scale specification: the all-zero skeleton is fully
degenerate and is normalized with scale 1. -/
theorem normalizePose_scale_spec_witness : poseScale zeroSkel = 1 :=
  normalizePose_scale_spec.2.2.2.2.2 zeroSkel
    (by simp [zeroSkel, ankleMidpoint])
    (by simp [zeroSkel, shoulderMidpoint, hipMidpoint])

/-- C4: `computeCenterOffset` is clamped to [-1, 1], is monotone non-decreasing
in the hip-midpoint x position, and yields 0 when the hip midpoint in pixel
space sits exactly at the viewport's horizontal center. -/
theorem computeCenterOffset_spec :
    (∀ (lms : Skeleton) (W : ℝ), 0 < W →
      -1 ≤ computeCenterOffset lms W ∧ computeCenterOffset lms W ≤ 1) ∧
    (∀ (l1 l2 : Skeleton) (W : ℝ), 0 < W → hipMidX l1 ≤ hipMidX l2 →
      computeCenterOffset l1 W ≤ computeCenterOffset l2 W) ∧
    (∀ (lms : Skeleton) (W : ℝ), 0 < W → hipMidX lms * W = W / 2 →
      computeCenterOffset lms W = 0) := by
  refine ⟨?_, ?_, ?_⟩
  · intro lms W _
    unfold computeCenterOffset
    exact ⟨le_max_left _ _, max_le (by norm_num) (min_le_left _ _)⟩
  · intro l1 l2 W hW hm
    unfold hipMidX at hm
    simp only [computeCenterOffset]
    have hden : (0 : ℝ) < W / 2 := by linarith
    have hnum : ((l1 POSE_LANDMARKS.LEFT_HIP).x + (l1 POSE_LANDMARKS.RIGHT_HIP).x) / 2 * W - W / 2 ≤
        ((l2 POSE_LANDMARKS.LEFT_HIP).x + (l2 POSE_LANDMARKS.RIGHT_HIP).x) / 2 * W - W / 2 := by
      nlinarith
    exact max_le_max le_rfl (min_le_min le_rfl ((div_le_div_iff_of_pos_right hden).mpr hnum))
  · intro lms W hW hc
    unfold hipMidX at hc
    simp only [computeCenterOffset]
    rw [hc]
    norm_num

/-- Witness for the center-offset specification: hips at x = 0.5 in a 1000px
viewport sit exactly at the horizontal center and give offset 0, within [-1, 1]. -/
theorem computeCenterOffset_spec_witness :
    computeCenterOffset (fun _ => { x := 0.5, y := 0.5, z := none, visibility := none }) 1000 = 0 ∧
    -1 ≤ computeCenterOffset (fun _ => { x := 0.5, y := 0.5, z := none, visibility := none }) 1000 ∧
    computeCenterOffset (fun _ => { x := 0.5, y := 0.5, z := none, visibility := none }) 1000 ≤ 1 :=
  ⟨computeCenterOffset_spec.2.2 _ 1000 (by norm_num) (by simp [hipMidX]; norm_num),
   computeCenterOffset_spec.1 _ 1000 (by norm_num)⟩

/-- C3: `computeDistanceHint` classifies the body height in viewport pixels as
too-close exactly when it exceeds 40% of the viewport height, too-far exactly
when it is below 15%, and good otherwise (boundaries included), so every input
falls in exactly one bucket; 50% is too-close, 10% is too-far, 25% is good. -/
theorem computeDistanceHint_spec :
    (∀ (lms : Skeleton) (H : ℝ), 0 < H →
      ((computeDistanceHint lms H = .tooClose ↔ bodyHeight lms * H > 0.4 * H) ∧
       (computeDistanceHint lms H = .tooFar ↔ bodyHeight lms * H < 0.15 * H) ∧
       (computeDistanceHint lms H = .good ↔
         0.15 * H ≤ bodyHeight lms * H ∧ bodyHeight lms * H ≤ 0.4 * H))) ∧
    (∀ (lms : Skeleton) (H : ℝ), 0 < H → bodyHeight lms * H = 0.5 * H →
      computeDistanceHint lms H = .tooClose) ∧
    (∀ (lms : Skeleton) (H : ℝ), 0 < H → bodyHeight lms * H = 0.1 * H →
      computeDistanceHint lms H = .tooFar) ∧
    (∀ (lms : Skeleton) (H : ℝ), 0 < H → bodyHeight lms * H = 0.25 * H →
      computeDistanceHint lms H = .good) := by
  have hmain : ∀ (lms : Skeleton) (H : ℝ), 0 < H →
      ((computeDistanceHint lms H = .tooClose ↔ bodyHeight lms * H > 0.4 * H) ∧
       (computeDistanceHint lms H = .tooFar ↔ bodyHeight lms * H < 0.15 * H) ∧
       (computeDistanceHint lms H = .good ↔
         0.15 * H ≤ bodyHeight lms * H ∧ bodyHeight lms * H ≤ 0.4 * H)) := by
    intro lms H _
    simp only [computeDistanceHint]
    split_ifs with h1 h2
    · refine ⟨by simp; linarith, by simp; linarith, by simp; intro h; linarith⟩
    · refine ⟨by simp; linarith, by simp; linarith, by simp; intro h; linarith⟩
    · refine ⟨by simp; linarith, by simp; linarith, by simp; constructor <;> linarith⟩
  refine ⟨hmain, ?_, ?_, ?_⟩
  · intro lms H hH hb
    exact (hmain lms H hH).1.mpr (by rw [hb]; nlinarith)
  · intro lms H hH hb
    exact (hmain lms H hH).2.1.mpr (by rw [hb]; nlinarith)
  · intro lms H hH hb
    exact (hmain lms H hH).2.2.mpr (by constructor <;> nlinarith)

/-- A skeleton whose nose sits 0.5 image units above the ankle midpoint: nose at
(0.5, 0.1) and every other landmark (ankles included) at (0.5, 0.6). -/
def halfHeightSkel : Skeleton := fun i =>
  if i = POSE_LANDMARKS.NOSE then { x := 0.5, y := 0.1, z := none, visibility := none }
  else { x := 0.5, y := 0.6, z := none, visibility := none }

/-- The body height of the half-height skeleton is exactly 0.5. -/
lemma bodyHeight_halfHeightSkel : bodyHeight halfHeightSkel = 0.5 := by
  have hnose : halfHeightSkel POSE_LANDMARKS.NOSE =
      { x := 0.5, y := 0.1, z := none, visibility := none } := if_pos rfl
  have hla : halfHeightSkel POSE_LANDMARKS.LEFT_ANKLE =
      { x := 0.5, y := 0.6, z := none, visibility := none } := if_neg (by decide)
  have hra : halfHeightSkel POSE_LANDMARKS.RIGHT_ANKLE =
      { x := 0.5, y := 0.6, z := none, visibility := none } := if_neg (by decide)
  unfold bodyHeight ankleMidpoint
  rw [hnose, hla, hra]
  have hsum : ((0.5 : ℝ) - (0.5 + 0.5) / 2) ^ 2 + ((0.1 : ℝ) - (0.6 + 0.6) / 2) ^ 2
      = 0.5 ^ 2 := by norm_num
  rw [hsum, Real.sqrt_sq (by norm_num)]

/-- Witness for the distance-hint specification: a body height of half the
image, in a 100px-tall viewport, is 50% of the viewport height and is
classified too-close. -/
theorem computeDistanceHint_spec_witness :
    computeDistanceHint halfHeightSkel 100 = .tooClose :=
  computeDistanceHint_spec.2.1 halfHeightSkel 100 (by norm_num)
    (by rw [bodyHeight_halfHeightSkel])

/-- A degenerate skeleton all of whose landmarks carry a present depth of
exactly 0 and visibility 1. -/
def zeroDepthSkel : Skeleton := fun _ => { x := 0, y := 0, z := some 0, visibility := some 1 }

/-- A skeleton all of whose landmarks carry depth 2 and visibility 1. -/
def depthSkel : Skeleton := fun _ => { x := 0, y := 0, z := some 2, visibility := some 1 }

/-- C7 counterexample: landmark 0 of `zeroDepthSkel` has a present input depth
of exactly 0, yet the normalized output carries no depth at all (`none`) instead
of the claimed `some (0 / scale)`: the source's `lm.z ? lm.z / scale : undefined`
ternary treats the number 0 as falsy. -/
theorem normalizePose_depth_zero_counterexample :
    (zeroDepthSkel POSE_LANDMARKS.NOSE).z = some 0 ∧
    (poseLandmark (normalizePose zeroDepthSkel) 0).z = none ∧
    (poseLandmark (normalizePose zeroDepthSkel) 0).z ≠
      some ((0 : ℝ) / poseScale zeroDepthSkel) := by
  have h0 : poseLandmark (normalizePose zeroDepthSkel) 0 =
      normalizeLandmark (hipMidpoint zeroDepthSkel) (poseScale zeroDepthSkel)
        (zeroDepthSkel POSE_LANDMARKS.NOSE) :=
    poseLandmark_normalizePose zeroDepthSkel POSE_LANDMARKS.NOSE
  have hz : (poseLandmark (normalizePose zeroDepthSkel) 0).z = none := by
    rw [h0]
    simp [normalizeLandmark, zeroDepthSkel]
  exact ⟨rfl, hz, by rw [hz]; simp⟩

/-- C7 (amended): `normalizePose` passes visibility through unchanged; a
present nonzero depth is divided by the scale (not translated); a missing depth
stays missing; and a present depth of exactly 0 is dropped (output depth
`none`), because the source's ternary treats 0 as falsy. -/
theorem normalizePose_depth_visibility (lms : Skeleton) (i : Fin 33) :
    (poseLandmark (normalizePose lms) i.val).visibility = (lms i).visibility ∧
    ((lms i).z = none → (poseLandmark (normalizePose lms) i.val).z = none) ∧
    ((lms i).z = some 0 → (poseLandmark (normalizePose lms) i.val).z = none) ∧
    (∀ zv : ℝ, (lms i).z = some zv → zv ≠ 0 →
      (poseLandmark (normalizePose lms) i.val).z = some (zv / poseScale lms)) := by
  rw [poseLandmark_normalizePose]
  refine ⟨rfl, ?_, ?_, ?_⟩
  · intro h
    simp [normalizeLandmark, h]
  · intro h
    simp [normalizeLandmark, h]
  · intro zv h hz
    simp [normalizeLandmark, h, hz]

/-- Witness for the amended depth/visibility specification: on a skeleton with
depth 2 and visibility 1 everywhere, the normalized landmark 0 keeps
visibility 1 and carries depth 2 / scale. -/
theorem normalizePose_depth_visibility_witness :
    (poseLandmark (normalizePose depthSkel) 0).z = some (2 / poseScale depthSkel) ∧
    (poseLandmark (normalizePose depthSkel) 0).visibility = some 1 :=
  ⟨(normalizePose_depth_visibility depthSkel POSE_LANDMARKS.NOSE).2.2.2 2 rfl (by norm_num),
   ((normalizePose_depth_visibility depthSkel POSE_LANDMARKS.NOSE).1).trans rfl⟩

/-- A skeleton with perfectly level shoulders whose LEFT_SHOULDER has the
larger image x coordinate (the usual arrangement for a subject facing a
non-mirrored camera). -/
def levelShouldersSkel : Skeleton := fun i =>
  if i = POSE_LANDMARKS.LEFT_SHOULDER then { x := 0.7, y := 0.5, z := none, visibility := none }
  else if i = POSE_LANDMARKS.RIGHT_SHOULDER then { x := 0.3, y := 0.5, z := none, visibility := none }
  else { x := 0, y := 0, z := none, visibility := none }

/-- C1 failing input: on perfectly level shoulders with the RIGHT_SHOULDER at
smaller x than the LEFT_SHOULDER, `computeTilt` returns 180 — outside the
documented [0, 90] range and contradicting both the spec and the code's own
comment that 0 means level — because `Math.atan2` of the reversed shoulder
direction gives the angle of the directed vector, not of the undirected line. -/
theorem computeTilt_level_shoulders_180 : computeTilt levelShouldersSkel = 180 := by
  have hls : levelShouldersSkel POSE_LANDMARKS.LEFT_SHOULDER =
      { x := 0.7, y := 0.5, z := none, visibility := none } := if_pos rfl
  have hrs : levelShouldersSkel POSE_LANDMARKS.RIGHT_SHOULDER =
      { x := 0.3, y := 0.5, z := none, visibility := none } :=
    (if_neg (by decide)).trans (if_pos rfl)
  simp only [computeTilt]
  rw [hls, hrs]
  have hdy : (0.5 : ℝ) - 0.5 = 0 := by norm_num
  have hdx : (0.3 : ℝ) - 0.7 = -0.4 := by norm_num
  rw [hdy, hdx]
  have hatan : atan2 0 (-0.4) = π := by
    unfold atan2
    rw [if_neg (by norm_num), if_pos (by norm_num), if_pos le_rfl]
    simp [Real.arctan_zero]
  rw [hatan]
  have hpi : π * (180 / π) = 180 := by
    field_simp
  rw [hpi]
  norm_num

/-- The qualification condition of the loop in `computePoseMatch`: both the
live and the template landmark entries exist at the index and the live
visibility is present, truthy (nonzero) and greater than 0.5. -/
def qualifies (normalizedPose templatePose : NormalizedPose) (idx : ℕ) : Prop :=
  ∃ live template v,
    normalizedPose.landmarks.get? idx = some live ∧
    templatePose.landmarks.get? idx = some template ∧
    live.visibility = some v ∧ v ≠ 0 ∧ v > 0.5

/-- The per-index Euclidean error read by `computePoseMatch` (0 when either
entry is missing; only ever accumulated at qualifying indices). -/
def idxError (normalizedPose templatePose : NormalizedPose) (idx : ℕ) : ℝ :=
  match normalizedPose.landmarks.get? idx, templatePose.landmarks.get? idx with
  | some live, some template => landmarkError live template
  | _, _ => 0

/-- The sublist of key indices that qualify for comparison. -/
def qualifyingKeys (normalizedPose templatePose : NormalizedPose) (keys : List ℕ) : List ℕ :=
  keys.filter fun idx => decide (qualifies normalizedPose templatePose idx)

/-- The mean Euclidean error over the qualifying key indices. -/
def avgError (normalizedPose templatePose : NormalizedPose) (keys : List ℕ) : ℝ :=
  ((qualifyingKeys normalizedPose templatePose keys).map
      (idxError normalizedPose templatePose)).sum /
    ((qualifyingKeys normalizedPose templatePose keys).length : ℝ)

/-- A non-qualifying index leaves the accumulator unchanged. -/
lemma matchStep_of_not_qualifies {np tp : NormalizedPose} {idx : ℕ}
    (hq : ¬ qualifies np tp idx) (acc : ℝ × ℕ) : matchStep np tp acc idx = acc := by
  rcases hn : np.landmarks.get? idx with _ | live <;>
    rcases ht : tp.landmarks.get? idx with _ | template <;>
      simp only [matchStep, hn, ht]
  rcases hv : live.visibility with _ | v
  · rfl
  · show (if v ≠ 0 ∧ v > 0.5 then (acc.1 + landmarkError live template, acc.2 + 1) else acc) = acc
    rw [if_neg]
    rintro ⟨h0, h5⟩
    exact hq ⟨live, template, v, hn, ht, hv, h0, h5⟩

/-- A qualifying index adds its landmark error and bumps the valid count. -/
lemma matchStep_of_qualifies {np tp : NormalizedPose} {idx : ℕ}
    (hq : qualifies np tp idx) (acc : ℝ × ℕ) :
    matchStep np tp acc idx = (acc.1 + idxError np tp idx, acc.2 + 1) := by
  obtain ⟨live, template, v, hn, ht, hv, h0, h5⟩ := hq
  simp only [matchStep, idxError, hn, ht, hv]
  rw [if_pos ⟨h0, h5⟩]

/-- The loop of `computePoseMatch` computes the total error and count over the
qualifying key indices. -/
lemma foldl_matchStep (np tp : NormalizedPose) (keys : List ℕ) :
    ∀ (e : ℝ) (n : ℕ),
      keys.foldl (matchStep np tp) (e, n) =
        (e + ((qualifyingKeys np tp keys).map (idxError np tp)).sum,
         n + (qualifyingKeys np tp keys).length) := by
  induction keys with
  | nil =>
    intro e n
    simp [qualifyingKeys]
  | cons i ks ih =>
    intro e n
    by_cases hq : qualifies np tp i
    · rw [List.foldl_cons, matchStep_of_qualifies hq, ih]
      simp only [qualifyingKeys, List.filter_cons, decide_eq_true hq, if_pos, List.map_cons,
        List.sum_cons, List.length_cons]
      refine congrArg₂ Prod.mk (by ring) (by omega)
    · rw [List.foldl_cons, matchStep_of_not_qualifies hq, ih]
      simp only [qualifyingKeys, List.filter_cons]
      rw [if_neg (by simpa using hq)]

/-- If no key index qualifies, `computePoseMatch` returns 0. -/
lemma computePoseMatch_eq_zero (np tp : NormalizedPose) (keys : List ℕ)
    (hall : ∀ i ∈ keys, ¬ qualifies np tp i) : computePoseMatch np tp keys = 0 := by
  simp only [computePoseMatch]
  by_cases hlen : keys.length = 0
  · rw [if_pos hlen]
  · rw [if_neg hlen, foldl_matchStep]
    have hfil : qualifyingKeys np tp keys = [] := by
      refine List.filter_eq_nil_iff.mpr fun i hi => ?_
      simpa using hall i hi
    simp [hfil]

/-- C2: `computePoseMatch` always lands in [0, 1]; an index is compared only
when the live visibility exceeds 0.5; no qualifying index gives score 0 (in
particular when every key landmark has visibility at most 0.5); otherwise the
score is `clamp (1 - avgError / 0.5) 0 1` over the qualifying indices, so
identical poses with visibility 1 score 1 and an average error of exactly 0.25
scores 0.5. -/
theorem computePoseMatch_spec :
    (∀ (np tp : NormalizedPose) (keys : List ℕ),
      0 ≤ computePoseMatch np tp keys ∧ computePoseMatch np tp keys ≤ 1) ∧
    (∀ (np tp : NormalizedPose) (idx : ℕ), qualifies np tp idx →
      ∃ live v, np.landmarks.get? idx = some live ∧ live.visibility = some v ∧ v > 0.5) ∧
    (∀ (np tp : NormalizedPose) (keys : List ℕ),
      (∀ i ∈ keys, ¬ qualifies np tp i) → computePoseMatch np tp keys = 0) ∧
    (∀ (np tp : NormalizedPose) (keys : List ℕ),
      (∀ i ∈ keys, ∀ live v, np.landmarks.get? i = some live → live.visibility = some v →
        v ≤ 0.5) →
      computePoseMatch np tp keys = 0) ∧
    (∀ (np tp : NormalizedPose) (keys : List ℕ), (∃ i ∈ keys, qualifies np tp i) →
      computePoseMatch np tp keys = max 0 (min 1 (1 - avgError np tp keys / 0.5))) ∧
    (∀ (np : NormalizedPose) (keys : List ℕ), keys ≠ [] →
      (∀ i ∈ keys, ∃ lm, np.landmarks.get? i = some lm ∧ lm.visibility = some 1) →
      computePoseMatch np np keys = 1) ∧
    (∀ (np tp : NormalizedPose) (keys : List ℕ), (∃ i ∈ keys, qualifies np tp i) →
      avgError np tp keys = 0.25 → computePoseMatch np tp keys = 0.5) := by
  have hzero := computePoseMatch_eq_zero
  have hscore : ∀ (np tp : NormalizedPose) (keys : List ℕ), (∃ i ∈ keys, qualifies np tp i) →
      computePoseMatch np tp keys = max 0 (min 1 (1 - avgError np tp keys / 0.5)) := by
    intro np tp keys hex
    obtain ⟨i, hik, hq⟩ := hex
    simp only [computePoseMatch]
    rw [if_neg (by simpa [List.length_eq_zero] using List.ne_nil_of_mem hik), foldl_matchStep]
    have hmem : i ∈ qualifyingKeys np tp keys :=
      List.mem_filter.mpr ⟨hik, decide_eq_true hq⟩
    have hlen : (qualifyingKeys np tp keys).length ≠ 0 := by
      simpa [List.length_eq_zero] using List.ne_nil_of_mem hmem
    rw [if_neg (by simpa using hlen)]
    simp [avgError]
  refine ⟨?_, ?_, hzero, ?_, hscore, ?_, ?_⟩
  · intro np tp keys
    simp only [computePoseMatch]
    split_ifs with h1 h2
    · norm_num
    · norm_num
    · exact ⟨le_max_left _ _, max_le (by norm_num) (min_le_left _ _)⟩
  · rintro np tp idx ⟨live, template, v, hn, _, hv, _, h5⟩
    exact ⟨live, v, hn, hv, h5⟩
  · intro np tp keys hall
    refine hzero np tp keys fun i hi => ?_
    rintro ⟨live, template, v, hn, ht, hv, h0, h5⟩
    have := hall i hi live v hn hv
    linarith
  · intro np keys hne hall
    have hex : ∃ i ∈ keys, qualifies np np i := by
      obtain ⟨i, hi⟩ := List.exists_mem_of_ne_nil keys hne
      obtain ⟨lm, hn, hv⟩ := hall i hi
      exact ⟨i, hi, lm, lm, 1, hn, hn, hv, one_ne_zero, by norm_num⟩
    rw [hscore np np keys hex]
    have havg : avgError np np keys = 0 := by
      unfold avgError
      have hsum : ((qualifyingKeys np np keys).map (idxError np np)).sum = 0 := by
        refine List.sum_eq_zero fun x hx => ?_
        obtain ⟨i, hiq, rfl⟩ := List.mem_map.mp hx
        have hik : i ∈ keys := (List.mem_filter.mp hiq).1
        obtain ⟨lm, hn, _⟩ := hall i hik
        have hn' : np.landmarks[i]? = some lm := by simpa [← List.get?_eq_getElem?] using hn
        simp [idxError, hn', landmarkError]
      rw [hsum, zero_div]
    rw [havg]
    norm_num
  · intro np tp keys hex havg
    rw [hscore np tp keys hex, havg]
    norm_num

/-- A one-landmark live pose at the origin with visibility 1. -/
def liveMatchPose : NormalizedPose where
  landmarks := [{ x := 0, y := 0, z := none, visibility := some 1 }]
  center := (0, 0)
  scale := 1

/-- A one-landmark template pose 0.25 units to the right of the origin. -/
def templMatchPose : NormalizedPose where
  landmarks := [{ x := 0.25, y := 0, z := none, visibility := none }]
  center := (0, 0)
  scale := 1

/-- Witness for the pose-match specification: a single qualifying landmark at
average error exactly 0.25 scores 0.5, inside [0, 1]. -/
theorem computePoseMatch_spec_witness :
    computePoseMatch liveMatchPose templMatchPose [0] = 0.5 ∧
    0 ≤ computePoseMatch liveMatchPose templMatchPose [0] ∧
    computePoseMatch liveMatchPose templMatchPose [0] ≤ 1 := by
  have hq : qualifies liveMatchPose templMatchPose 0 :=
    ⟨{ x := 0, y := 0, z := none, visibility := some 1 },
     { x := 0.25, y := 0, z := none, visibility := none }, 1,
     rfl, rfl, rfl, one_ne_zero, by norm_num⟩
  have havg : avgError liveMatchPose templMatchPose [0] = 0.25 := by
    have hfil : qualifyingKeys liveMatchPose templMatchPose [0] = [0] := by
      simp [qualifyingKeys, List.filter_cons, decide_eq_true hq]
    have herr : idxError liveMatchPose templMatchPose 0 = 0.25 := by
      simp only [idxError, liveMatchPose, templMatchPose, List.get?, landmarkError]
      rw [show ((0 : ℝ) - 0.25) ^ 2 + ((0 : ℝ) - 0) ^ 2 = 0.25 ^ 2 by norm_num,
        Real.sqrt_sq (by norm_num)]
    rw [avgError, hfil]
    simp [herr]
  exact ⟨computePoseMatch_spec.2.2.2.2.2.2 liveMatchPose templMatchPose [0]
      ⟨0, by simp, hq⟩ havg,
    computePoseMatch_spec.1 liveMatchPose templMatchPose [0]⟩

/-- Model of the `PoseTemplate` type from `src/data/poseTemplates.ts`. -/
structure PoseTemplate where
  id : String
  name : String
  description : String
  keyLandmarks : List ℕ
  normalizedPose : NormalizedPose

/-- The `full-body` entry of `poseTemplates` in `src/data/poseTemplates.ts`.
Key landmarks: LEFT/RIGHT shoulder (11, 12), hip (23, 24), knee (25, 26) and
ankle (27, 28). -/
def fullBodyTemplate : PoseTemplate where
  id := "full-body"
  name := "Full Body"
  description := "Standing full body portrait"
  keyLandmarks := [11, 12, 23, 24, 25, 26, 27, 28]
  normalizedPose :=
    { center := (0, 0)
      scale := 1
      landmarks :=
        [{ x := 0, y := -0.4, z := none, visibility := none },
         { x := 0, y := -0.4, z := none, visibility := none },
         { x := -0.05, y := 0, z := none, visibility := none },
         { x := 0.05, y := 0, z := none, visibility := none },
         { x := -0.05, y := 0.25, z := none, visibility := none },
         { x := 0.05, y := 0.25, z := none, visibility := none },
         { x := -0.05, y := 0.5, z := none, visibility := none },
         { x := 0.05, y := 0.5, z := none, visibility := none }] }

/-- The `half-body` entry of `poseTemplates`.  Key landmarks: shoulders
(11, 12), hips (23, 24), elbows (13, 14) and wrists (15, 16). -/
def halfBodyTemplate : PoseTemplate where
  id := "half-body"
  name := "Half Body"
  description := "Upper body portrait"
  keyLandmarks := [11, 12, 23, 24, 13, 14, 15, 16]
  normalizedPose :=
    { center := (0, 0)
      scale := 1
      landmarks :=
        [{ x := -0.1, y := -0.3, z := none, visibility := none },
         { x := 0.1, y := -0.3, z := none, visibility := none },
         { x := -0.05, y := 0, z := none, visibility := none },
         { x := 0.05, y := 0, z := none, visibility := none },
         { x := -0.15, y := -0.15, z := none, visibility := none },
         { x := 0.15, y := -0.15, z := none, visibility := none },
         { x := -0.2, y := 0, z := none, visibility := none },
         { x := 0.2, y := 0, z := none, visibility := none }] }

/-- The `seated` entry of `poseTemplates`.  Key landmarks: shoulders (11, 12),
hips (23, 24) and knees (25, 26). -/
def seatedTemplate : PoseTemplate where
  id := "seated"
  name := "Seated"
  description := "Seated portrait"
  keyLandmarks := [11, 12, 23, 24, 25, 26]
  normalizedPose :=
    { center := (0, 0)
      scale := 1
      landmarks :=
        [{ x := -0.1, y := -0.35, z := none, visibility := none },
         { x := 0.1, y := -0.35, z := none, visibility := none },
         { x := -0.05, y := 0, z := none, visibility := none },
         { x := 0.05, y := 0, z := none, visibility := none },
         { x := -0.1, y := 0.2, z := none, visibility := none },
         { x := 0.1, y := 0.2, z := none, visibility := none }] }

/-- The static `poseTemplates` array from `src/data/poseTemplates.ts`. -/
def poseTemplates : List PoseTemplate :=
  [fullBodyTemplate, halfBodyTemplate, seatedTemplate]

/-- C10: against any built-in default template as statically defined, every
live pose scores 0: all key landmark indices are MediaPipe indices 11 and up,
while the template landmark lists hold at most 8 entries at positions 0..7, so
every template lookup misses, no index qualifies, and the score is 0. -/
theorem defaultTemplates_score_zero :
    ∀ live : NormalizedPose, ∀ t ∈ poseTemplates,
      computePoseMatch live t.normalizedPose t.keyLandmarks = 0 := by
  intro live t ht
  have hnone : ∀ i ∈ t.keyLandmarks, t.normalizedPose.landmarks.get? i = none := by
    simp only [poseTemplates, List.mem_cons, List.not_mem_nil, or_false] at ht
    rcases ht with rfl | rfl | rfl <;> (intro i hi; fin_cases hi <;> rfl)
  refine computePoseMatch_eq_zero _ _ _ fun i hi => ?_
  rintro ⟨l, tm, v, _, htm, _, _, _⟩
  rw [hnone i hi] at htm
  exact Option.noConfusion htm

/-- Witness for the default-template score: the concrete one-landmark live pose
scores 0 against the full-body default template. -/
theorem defaultTemplates_score_zero_witness :
    computePoseMatch liveMatchPose fullBodyTemplate.normalizedPose
      fullBodyTemplate.keyLandmarks = 0 :=
  defaultTemplates_score_zero liveMatchPose fullBodyTemplate
    (by simp [poseTemplates])

/-- The `{ landmarks, normalizedPose }` record cached per template id by the
application component (`templateAnalysisCache` in the App source). -/
structure AnalysisResult where
  landmarks : List Landmark
  normalizedPose : NormalizedPose

/-- The mutable application state read and written by `handleTemplateSelect`:
the template analysis cache, the `isAnalyzingTemplate` guard flag, the selected
template and the template landmarks overlay data. -/
structure AppState where
  templateAnalysisCache : List (String × AnalysisResult)
  isAnalyzingTemplate : Bool
  selectedTemplate : PoseTemplate
  templateLandmarks : Option (List Landmark)

/-- Model of the synchronous prefix of `handleTemplateSelect` (App component),
up to its `await analyzeImagePose(...)` suspension point, as one atomic step of
the single-threaded event loop.  Returns the successor state together with the
number of underlying detector invocations started (0 or 1): an early return on
the `isAnalyzingTemplate` guard or a cache hit starts none; a cache miss sets
the guard, keeps the caller-supplied template (with its built-in or previously
resolved pose) selected, and starts exactly one analysis. -/
def selectStart (st : AppState) (t : PoseTemplate) : AppState × ℕ :=
  if st.isAnalyzingTemplate then (st, 0)
  else
    match st.templateAnalysisCache.lookup t.id with
    | some cached =>
      ({ st with
          selectedTemplate := { t with normalizedPose := cached.normalizedPose },
          templateLandmarks := some cached.landmarks }, 0)
    | none =>
      ({ st with selectedTemplate := t, isAnalyzingTemplate := true }, 1)

/-- Model of the continuation of `handleTemplateSelect` after the awaited
`analyzeImagePose` settles.  A `some` result is the success path (cache the
result, select the updated template); `none` covers every failure mode of
`analyzeImagePose` (no body found, image load failure, timeout, thrown error),
all of which that function absorbs by resolving to null; the `finally` clause
clears the guard flag in both cases. -/
def selectFinish (st : AppState) (t : PoseTemplate) (result : Option AnalysisResult) : AppState :=
  match result with
  | some r =>
    { st with
        templateAnalysisCache := (t.id, r) :: st.templateAnalysisCache,
        selectedTemplate := { t with normalizedPose := r.normalizedPose },
        templateLandmarks := some r.landmarks,
        isAnalyzingTemplate := false }
  | none =>
    { st with templateLandmarks := none, isAnalyzingTemplate := false }

/-- C8: a cached template id is never recomputed (a selection of it starts no
detector invocation, leaves the cache unchanged and reuses the cached pose),
and two selections of the same template id with no completion in between (the
second issued while the first is still in flight) start at most one detector
invocation in total. -/
theorem templateCache_spec :
    (∀ (st : AppState) (t : PoseTemplate) (r : AnalysisResult),
      st.isAnalyzingTemplate = false →
      st.templateAnalysisCache.lookup t.id = some r →
      (selectStart st t).2 = 0 ∧
      (selectStart st t).1.templateAnalysisCache = st.templateAnalysisCache ∧
      (selectStart st t).1.selectedTemplate.normalizedPose = r.normalizedPose) ∧
    (∀ (st : AppState) (t : PoseTemplate),
      (selectStart st t).2 + (selectStart (selectStart st t).1 t).2 ≤ 1) := by
  constructor
  · intro st t r ha hr
    simp [selectStart, ha, hr]
  · intro st t
    by_cases ha : st.isAnalyzingTemplate
    · simp [selectStart, ha]
    · rcases hl : st.templateAnalysisCache.lookup t.id with _ | r <;>
        simp [selectStart, ha, hl]

/-- C9: when a template's resolution fails, nothing is cached for its id (a
later lookup still misses), the selected template keeps the normalized pose it
was selected with (its built-in default or previously resolved pose), and the
guard flag is cleared so the session continues. -/
theorem templateFailure_spec :
    ∀ (st : AppState) (t : PoseTemplate),
      st.isAnalyzingTemplate = false →
      st.templateAnalysisCache.lookup t.id = none →
      (selectFinish (selectStart st t).1 t none).templateAnalysisCache =
        st.templateAnalysisCache ∧
      (selectFinish (selectStart st t).1 t none).templateAnalysisCache.lookup t.id = none ∧
      (selectFinish (selectStart st t).1 t none).selectedTemplate = t ∧
      (selectFinish (selectStart st t).1 t none).isAnalyzingTemplate = false := by
  intro st t ha hl
  simp [selectStart, selectFinish, ha, hl]

/-- The analysis result used by the concrete cache-state witnesses. -/
def emptyAnalysisResult : AnalysisResult where
  landmarks := []
  normalizedPose := { landmarks := [], center := (0, 0), scale := 1 }

/-- An idle application state with an empty template cache. -/
def emptyAppState : AppState where
  templateAnalysisCache := []
  isAnalyzingTemplate := false
  selectedTemplate := fullBodyTemplate
  templateLandmarks := none

/-- An idle application state whose cache already holds the full-body template. -/
def cachedAppState : AppState where
  templateAnalysisCache := [("full-body", emptyAnalysisResult)]
  isAnalyzingTemplate := false
  selectedTemplate := fullBodyTemplate
  templateLandmarks := none

/-- Witness for the cache specification: selecting the already-cached full-body
template starts no detector invocation, and a double selection from the empty
cache starts at most one. -/
theorem templateCache_spec_witness :
    (selectStart cachedAppState fullBodyTemplate).2 = 0 ∧
    (selectStart emptyAppState fullBodyTemplate).2 +
      (selectStart (selectStart emptyAppState fullBodyTemplate).1 fullBodyTemplate).2 ≤ 1 :=
  ⟨(templateCache_spec.1 cachedAppState fullBodyTemplate emptyAnalysisResult rfl rfl).1,
   templateCache_spec.2 emptyAppState fullBodyTemplate⟩

/-- Witness for the failure specification: a failed resolution of the full-body
template from the empty-cache state leaves the cache empty, keeps the template's
own pose selected, and clears the guard flag. -/
theorem templateFailure_spec_witness :
    (selectFinish (selectStart emptyAppState fullBodyTemplate).1 fullBodyTemplate
        none).templateAnalysisCache = [] ∧
    (selectFinish (selectStart emptyAppState fullBodyTemplate).1 fullBodyTemplate
        none).selectedTemplate = fullBodyTemplate ∧
    (selectFinish (selectStart emptyAppState fullBodyTemplate).1 fullBodyTemplate
        none).isAnalyzingTemplate = false := by
  have h := templateFailure_spec emptyAppState fullBodyTemplate rfl rfl
  exact ⟨h.1, h.2.2.1, h.2.2.2⟩

end RightAnglePhoto
